import Mathlib

/-!
Verification of the EthicalAIditor LLM API (llm-api/app.py and
llm-api/vm-setup/app.py) against its design specification.

The serverless variant keeps three module-level globals: `model`,
`tokenizer` and the boolean `model_loading`.  We embed them as an explicit
state record, embed the load routine as a state transformer parameterised
by the point at which the external library raises (if at all), and embed
`get_model` (the readiness coordinator entry point) as a function of the
state and of the outcome of the load that is in flight while a caller
waits.  Request handlers are functions of the state, the request data and
an abstract generation backend; each handler is instrumented with a flag
(or count) recording whether the backend / the load routine actually ran.

Python strings are sequences of code points; we embed them as `List Char`.
-/

/-- Python strings, embedded as lists of code points. -/
abbrev Str := List Char

/-- The characters removed by Python `str.strip()` with no argument. -/
def pySpace (c : Char) : Bool :=
  c == ' ' || c == '\t' || c == '\n' || c == '\x0d' || c == '\x0b' || c == '\x0c'

/-- Python `s.strip()`: remove leading and trailing whitespace. -/
def pyStrip (s : Str) : Str :=
  ((s.dropWhile pySpace).reverse.dropWhile pySpace).reverse

/-- Python `s.startswith(p)`. -/
def pyStartswith (s p : Str) : Bool :=
  p.isPrefixOf s

/-- Python `needle in hay` for strings: `needle` occurs as a contiguous
substring of `hay`. -/
def occursIn (needle hay : Str) : Bool :=
  match hay with
  | [] => needle.isEmpty
  | c :: t => needle.isPrefixOf (c :: t) || occursIn needle t

/-- `MODEL_NAME` from app.py. -/
def MODEL_NAME : String := "PleIAs/Pleias-350m-Preview"

/-- The module-level mutable state of the serverless variant
(`model`, `tokenizer`, `model_loading` in app.py).  Model and tokenizer
handles are opaque; we represent them by natural numbers. -/
structure AppState where
  model : Option Nat
  tokenizer : Option Nat
  model_loading : Bool
deriving Repr, DecidableEq

/-- The state at process start: `model = None`, `tokenizer = None`,
`model_loading = False`. -/
def initState : AppState := ⟨none, none, false⟩

/-- Where a run of the expensive load routine raises, if at all.
`AutoTokenizer.from_pretrained` runs first; `AutoModelForCausalLM` second,
so a model-load failure still leaves the tokenizer assigned. -/
inductive LoadOutcome where
  | tokenizerError
  | modelError (tok : Nat)
  | success (tok : Nat) (m : Nat)
deriving Repr, DecidableEq

/-- `load_model` (app.py lines 60-97): assigns `tokenizer`, then `model`;
on an exception the `except` clause clears `model_loading` and re-raises,
and the `finally` clause clears `model_loading` in every case. -/
def load_model (s : AppState) (o : LoadOutcome) : AppState × Except String Unit :=
  match o with
  | .tokenizerError =>
      ({ s with model_loading := false }, .error "load failed")
  | .modelError tok =>
      ({ s with tokenizer := some tok, model_loading := false }, .error "load failed")
  | .success tok m =>
      ({ s with tokenizer := some tok, model := some m, model_loading := false }, .ok ())

/-- `load_model_background` (app.py lines 99-106): sets `model_loading`,
runs `load_model`, and swallows any exception (it is only logged). -/
def load_model_background (s : AppState) (o : LoadOutcome) : AppState :=
  (load_model { s with model_loading := true } o).1

/-- `get_model` (app.py lines 47-58), the readiness-coordinator entry
point.  Returns the new state, the returned `(model, tokenizer)` pair (or
the propagated load exception), and the number of `load_model` invocations
this call itself performed.

If `model` is already set the globals are returned at once.  If another
load is in flight (`model_loading` true), the caller sleeps in a polling
loop until that load completes; `o` is the outcome of the in-flight load,
whose completion is the only concurrent mutation of the state, and the
waiter performs no load of its own.  Otherwise the caller runs
`load_model` synchronously and an exception propagates to it. -/
def get_model (s : AppState) (o : LoadOutcome) :
    AppState × Except String (Option Nat × Option Nat) × Nat :=
  match s.model with
  | some m => (s, .ok (some m, s.tokenizer), 0)
  | none =>
    if s.model_loading then
      let s1 := (load_model s o).1
      (s1, .ok (s1.model, s1.tokenizer), 0)
    else
      match load_model s o with
      | (s1, .ok ()) => (s1, .ok (s1.model, s1.tokenizer), 1)
      | (s1, .error e) => (s1, .error e, 1)

/-- One LOADING episode: a background initiator has set `model_loading`
(the load is in flight with outcome `o`) and `n` callers arrive while
Load State = LOADING; each waits the load out via `get_model`.  Returns
the final state, the list of values the waiting callers observe, and the
total number of `load_model` invocations (the initiator runs exactly one;
each waiter contributes its own count). -/
def loading_scenario (o : LoadOutcome) (n : Nat) :
    AppState × List (Except String (Option Nat × Option Nat)) × Nat :=
  let inFlight : AppState := { initState with model_loading := true }
  let settled := load_model_background initState o
  let waiterRuns := List.replicate n (get_model inFlight o)
  (settled, waiterRuns.map (fun r => r.2.1), 1 + (waiterRuns.map (fun r => r.2.2)).sum)

/-- Whether a load outcome is a failure (the load routine raises). -/
def LoadOutcome.failed : LoadOutcome → Bool
  | .tokenizerError => true
  | .modelError _ => true
  | .success _ _ => false

/-- The body of the `/health` response (app.py lines 114-121). -/
structure HealthBody where
  status : String
  model : String
  model_loaded : Bool
deriving Repr, DecidableEq

/-- `health_check` (app.py lines 114-121). -/
def health_check (s : AppState) : HealthBody :=
  ⟨"healthy", MODEL_NAME, s.model.isSome⟩

/-- The invariant of claim C8 for the serverless state: whenever the model
handle is set, the tokenizer is set too. -/
def LoadedInv (s : AppState) : Prop := s.model.isSome → s.tokenizer.isSome

instance (s : AppState) : Decidable (LoadedInv s) := by
  unfold LoadedInv; infer_instance

/-- The JSON body of a `/generate` request as the handler reads it:
`data.get` on the fields it uses.  An absent or falsy body is the case
`prompt = none` (an empty dict has no `prompt` key either).  `max_length`
defaults to 100, `temperature` (a float, passed through to the backend
untouched) to 7/10. -/
structure GenRequest where
  prompt : Option Str
  max_length : Option Int
  temperature : Option ℚ
deriving Repr, DecidableEq

/-- A JSON response body of the serverless handlers. -/
inductive RespBody where
  | genOk (prompt : Str) (generated_text : Str) (model : String)
  | chatOk (text : Str) (model : String)
  | err (error : String)
  | errDetails (error : String) (details : String)
deriving Repr, DecidableEq

/-- An HTTP response: body plus status code (jsonify defaults to 200). -/
abbrev HttpResp := RespBody × Nat

/-- `generate_text` (app.py lines 137-191).  The whole body is inside a
`try`: first `get_model()` (whose exception lands in the `except` clause
as a 500), then the `prompt` presence check, then the `max_length` bound,
then tokenisation and generation.  `B prompt max_length` is the abstract
Generation Backend (tokenize, `model.generate`, decode).  If `get_model`
returned `None` for the tokenizer, calling it raises a `TypeError`,
caught as a 500; if only the model is `None`, `model.generate` raises
before any generation.  The boolean records whether the Generation
Backend (`model.generate`) was invoked. -/
def generate_text (s : AppState) (o : LoadOutcome) (B : Str → Int → Str)
    (req : GenRequest) : AppState × HttpResp × Bool :=
  match get_model s o with
  | (s1, .error e, _) => (s1, ((.errDetails "Internal server error" e), 500), false)
  | (s1, .ok (mOpt, tOpt), _) =>
    match req.prompt with
    | none => (s1, ((.err "Missing required field: prompt"), 400), false)
    | some prompt =>
      let max_length := req.max_length.getD 100
      if max_length > 500 then
        (s1, ((.err "max_length cannot exceed 500 tokens"), 400), false)
      else
        match tOpt with
        | none =>
            (s1, ((.errDetails "Internal server error" "NoneType object is not callable"), 500),
             false)
        | some _ =>
          match mOpt with
          | none =>
              (s1, ((.errDetails "Internal server error"
                      "NoneType object has no attribute generate"), 500), false)
          | some _ =>
              (s1, ((.genOk prompt (B prompt max_length) MODEL_NAME), 200), true)

/-- The fixed system preamble of the `/chat` handler (app.py line 207). -/
def SYSTEM_BASE : Str :=
  "You are an ethical AI writing assistant trained on legally licensed materials.".data

/-- The header prepended to the manuscript excerpt (app.py line 209). -/
def CONTEXT_HEADER : Str := "\n\nManuscript context:\n".data

/-- System-prompt construction (app.py lines 207-209): the excerpt
`manuscript_context[:2000]` is appended only when the context string is
truthy (non-empty). -/
def buildSystemPrompt (ctx : Str) : Str :=
  if ctx = [] then SYSTEM_BASE
  else SYSTEM_BASE ++ CONTEXT_HEADER ++ ctx.take 2000

/-- One element of the `messages` list; `m.get` on `role` and `content`. -/
structure ChatMessage where
  role : Option String
  content : Option Str
deriving Repr, DecidableEq

/-- Role-tagged formatting of one message (app.py line 213): the f-string
always puts one space on each side of the content, and `[INST]`/`[/INST]`
only around user messages. -/
def formatMessage (m : ChatMessage) : Str :=
  (if m.role = some "user" then "[INST]".data else [])
    ++ " ".data ++ m.content.getD [] ++ " ".data
    ++ (if m.role = some "user" then "[/INST]".data else [])

/-- Python `"\n".join`. -/
def joinNewline : List Str → Str
  | [] => []
  | [x] => x
  | x :: y :: xs => x ++ '\n' :: joinNewline (y :: xs)

/-- `full_prompt` of the `/chat` handler (app.py lines 212-217). -/
def buildFullPrompt (messages : List ChatMessage) (ctx : Str) : Str :=
  buildSystemPrompt ctx ++ "\n\n".data ++ joinNewline (messages.map formatMessage)

/-- The echo-stripping step of `/chat` (app.py lines 237-239): if the
decoded output starts with the full prompt, drop that prefix and strip
the whitespace around what remains. -/
def stripPromptEcho (full_prompt generated : Str) : Str :=
  if pyStartswith generated full_prompt then
    pyStrip (generated.drop full_prompt.length)
  else generated

/-- The body of a `/chat` request. -/
structure ChatRequest where
  messages : List ChatMessage
  manuscriptContext : Str
deriving Repr, DecidableEq

/-- `chat` (app.py lines 193-251), POST path.  Same `try` shape as
`generate_text`: `get_model` first, then prompt construction, generation
with fixed parameters, echo stripping.  `B` maps the full prompt to the
decoded raw backend output. -/
def chat (s : AppState) (o : LoadOutcome) (B : Str → Str) (req : ChatRequest) :
    AppState × HttpResp × Bool :=
  match get_model s o with
  | (s1, .error e, _) => (s1, ((.errDetails "Internal server error" e), 500), false)
  | (s1, .ok (mOpt, tOpt), _) =>
    let full_prompt := buildFullPrompt req.messages req.manuscriptContext
    match tOpt with
    | none =>
        (s1, ((.errDetails "Internal server error" "NoneType object is not callable"), 500),
         false)
    | some _ =>
      match mOpt with
      | none =>
          (s1, ((.errDetails "Internal server error"
                  "NoneType object has no attribute generate"), 500), false)
      | some _ =>
          (s1, ((.chatOk (stripPromptEcho full_prompt (B full_prompt)) MODEL_NAME), 200), true)

/-- The masking expression of `/debug/env` (app.py line 128):
`f"{token[:4]}...{token[-4:]}"`.  Python clamps both slices exactly as
`List.take`/truncated subtraction do. -/
def maskToken (t : Str) : Str :=
  t.take 4 ++ "...".data ++ t.drop (t.length - 4)

/-- The body of the `/debug/env` response (app.py lines 123-135). -/
structure DebugEnvBody where
  hf_token_configured : Bool
  hf_token_masked : Str
  port : Str
deriving Repr, DecidableEq

/-- `debug_env` (app.py lines 123-135). -/
def debug_env (hf_token : Option Str) (port : Option Str) : DebugEnvBody :=
  { hf_token_configured := hf_token.isSome
    hf_token_masked := match hf_token with
      | some t => maskToken t
      | none => "NOT SET".data
    port := port.getD "not set".data }

/-- The module-level state of the VM variant (vm-setup/app.py): `model`
and `tokenizer`, loaded once at startup, no loading flag. -/
structure VmState where
  model : Option Nat
  tokenizer : Option Nat
deriving Repr, DecidableEq

/-- `load_model` of the VM variant (vm-setup/app.py lines 31-50): no
`try`; the tokenizer is assigned first, so a model-load failure leaves
the tokenizer assigned and the exception propagates. -/
def vm_load_model (s : VmState) (o : LoadOutcome) : VmState × Except String Unit :=
  match o with
  | .tokenizerError => (s, .error "load failed")
  | .modelError tok => ({ s with tokenizer := some tok }, .error "load failed")
  | .success tok m => (⟨some m, some tok⟩, .ok ())

/-- The body of a VM `/chat` (or `/generate`) request
(vm-setup/app.py lines 67-70). -/
structure VmChatRequest where
  prompt : Option Str
  max_tokens : Option Int
  temperature : Option ℚ
deriving Repr, DecidableEq

/-- A VM response body. -/
inductive VmRespBody where
  | ok (response : Str) (model : String) (deployment : String)
  | err (error : String)
deriving Repr, DecidableEq

/-- `chat` of the VM variant (vm-setup/app.py lines 61-108): 503 when the
model or tokenizer is not loaded, 400 on an empty/missing prompt,
otherwise generate with `max_new_tokens = max_tokens` and return the
output with the first `len(prompt)` characters dropped (no `startswith`
check here) and whitespace stripped. -/
def vm_chat (s : VmState) (B : Str → Int → Str) (req : VmChatRequest) :
    VmRespBody × Nat :=
  if s.model = none ∨ s.tokenizer = none then
    ((.err "Model not loaded"), 503)
  else
    let prompt := req.prompt.getD []
    if prompt = [] then ((.err "No prompt provided"), 400)
    else
      let generated := B prompt (req.max_tokens.getD 200)
      ((.ok (pyStrip (generated.drop prompt.length)) MODEL_NAME "compute-engine-vm"), 200)

/-- `generate` of the VM variant (vm-setup/app.py lines 110-113):
its body is exactly `return chat()`. -/
def vm_generate (s : VmState) (B : Str → Int → Str) (req : VmChatRequest) :
    VmRespBody × Nat :=
  vm_chat s B req

/-! ## Theorems -/

/-- Claim C1, counterexample.  A caller that arrives while a background
load is in flight (`model = None`, `model_loading = True`) and waits out a
load that fails receives `(None, None)` from `get_model` without any
exception: it does get an unready `None` handle, contradicting the claim
that the entry point blocks until Load State = READY and never hands a
waiting caller an unready handle. -/
theorem C1_counterexample :
    (⟨none, none, true⟩ : AppState).model_loading = true ∧
    (get_model ⟨none, none, true⟩ LoadOutcome.tokenizerError).2.1 =
      Except.ok (none, none) ∧
    (get_model ⟨none, none, true⟩ LoadOutcome.tokenizerError).1.model = none := by
  refine ⟨rfl, rfl, rfl⟩

/-- Claim C1, amended: a caller arriving while a load is in flight waits
that load out and then returns whatever the settled globals hold — the
ready handle when the load succeeded, but `(None, tokenizer)` when it
failed; only the synchronous (initiating) caller observes the load
exception itself, and a synchronous successful load does return the ready
handle. -/
theorem C1_amended (s : AppState) (tok m t2 : Nat)
    (h1 : s.model = none) (h2 : s.model_loading = true) :
    (get_model s (.success tok m)).2.1 = Except.ok (some m, some tok) ∧
    (get_model s .tokenizerError).2.1 = Except.ok (none, s.tokenizer) ∧
    (get_model s (.modelError t2)).2.1 = Except.ok (none, some t2) ∧
    (get_model initState (.success tok m)).2.1 = Except.ok (some m, some tok) ∧
    (get_model initState .tokenizerError).2.1 = Except.error "load failed" := by
  obtain ⟨mo, tk, ml⟩ := s
  simp only at h1 h2
  subst h1; subst h2
  refine ⟨rfl, rfl, rfl, rfl, rfl⟩

/-- Claim C1 witness. -/
theorem C1_amended_witness :
    (⟨none, some 9, true⟩ : AppState).model = none ∧
    (⟨none, some 9, true⟩ : AppState).model_loading = true ∧
    (get_model ⟨none, some 9, true⟩ (.success 1 2)).2.1 = Except.ok (some 2, some 1) ∧
    (get_model ⟨none, some 9, true⟩ .tokenizerError).2.1 =
      Except.ok (none, (⟨none, some 9, true⟩ : AppState).tokenizer) ∧
    (get_model ⟨none, some 9, true⟩ (.modelError 3)).2.1 = Except.ok (none, some 3) ∧
    (get_model initState (.success 1 2)).2.1 = Except.ok (some 2, some 1) ∧
    (get_model initState .tokenizerError).2.1 = Except.error "load failed" :=
  ⟨rfl, rfl, C1_amended ⟨none, some 9, true⟩ 1 2 3 rfl rfl⟩

/-- Claim C2: a caller arriving while Load State = LOADING performs no
`load_model` invocation of its own and observes exactly the globals left
by the in-flight load; in a LOADING episode with one background initiator
and `n` such waiting callers, `load_model` runs exactly once in total and
every waiter observes the same `(model, tokenizer)` pair — the one the
single load produced (ready handles on success, the same `None` on
failure). -/
theorem C2_single_load (s : AppState) (o : LoadOutcome) (n : Nat)
    (h1 : s.model = none) (h2 : s.model_loading = true) :
    (get_model s o).2.2 = 0 ∧
    (get_model s o).2.1 =
      Except.ok ((load_model s o).1.model, (load_model s o).1.tokenizer) ∧
    (loading_scenario o n).2.2 = 1 ∧
    (∀ r, r ∈ (loading_scenario o n).2.1 →
      r = Except.ok ((load_model_background initState o).model,
                     (load_model_background initState o).tokenizer)) := by
  obtain ⟨mo, tk, ml⟩ := s
  simp only at h1 h2
  subst h1; subst h2
  refine ⟨?_, ?_, ?_, ?_⟩
  · cases o <;> rfl
  · cases o <;> rfl
  · have hw : ∀ o9, (get_model { initState with model_loading := true } o9).2.2 = 0 := by
      intro o9; cases o9 <;> rfl
    simp [loading_scenario, List.map_replicate, hw, List.sum_replicate]
  · intro r hr
    simp [loading_scenario, List.map_replicate, List.mem_replicate] at hr
    rw [hr.2]
    cases o <;> rfl

/-- Claim C2 witness. -/
theorem C2_single_load_witness :
    (⟨none, none, true⟩ : AppState).model = none ∧
    (⟨none, none, true⟩ : AppState).model_loading = true ∧
    (get_model ⟨none, none, true⟩ (.success 5 7)).2.2 = 0 ∧
    (loading_scenario (.success 5 7) 3).2.2 = 1 ∧
    (Except.ok (some 7, some 5) ∈ (loading_scenario (.success 5 7) 3).2.1 →
      (Except.ok (some 7, some 5) :
          Except String (Option Nat × Option Nat)) =
        Except.ok ((load_model_background initState (.success 5 7)).model,
                   (load_model_background initState (.success 5 7)).tokenizer)) :=
  ⟨rfl, rfl,
   (C2_single_load ⟨none, none, true⟩ (.success 5 7) 3 rfl rfl).1,
   (C2_single_load ⟨none, none, true⟩ (.success 5 7) 3 rfl rfl).2.2.1,
   (C2_single_load ⟨none, none, true⟩ (.success 5 7) 3 rfl rfl).2.2.2 _⟩

/-- Claim C3: after any failing load (`load_model` raising at either
stage), the globals satisfy `model = None` and `model_loading = False`
(Load State is back to UNINITIALIZED, not stuck at LOADING), both on the
synchronous path and on the background path; from that state a subsequent
`get_model` call performs a fresh `load_model` invocation, and if that
retry succeeds the caller receives the ready handle. -/
theorem C3_retry_after_failure (s : AppState) (o o2 : LoadOutcome)
    (h1 : s.model = none) (h2 : o.failed = true) :
    ((load_model s o).1.model = none ∧ (load_model s o).1.model_loading = false) ∧
    ((load_model_background s o).model = none ∧
      (load_model_background s o).model_loading = false) ∧
    (get_model (load_model_background s o) o2).2.2 = 1 ∧
    (∀ tok m, o2 = .success tok m →
      (get_model (load_model_background s o) o2).2.1 = Except.ok (some m, some tok)) := by
  obtain ⟨mo, tk, ml⟩ := s
  simp only at h1
  subst h1
  cases o with
  | success tok m => simp [LoadOutcome.failed] at h2
  | tokenizerError =>
    refine ⟨⟨rfl, rfl⟩, ⟨rfl, rfl⟩, ?_, ?_⟩
    · cases o2 <;> rfl
    · intro tok m ho2; subst ho2; rfl
  | modelError t1 =>
    refine ⟨⟨rfl, rfl⟩, ⟨rfl, rfl⟩, ?_, ?_⟩
    · cases o2 <;> rfl
    · intro tok m ho2; subst ho2; rfl

/-- Claim C3 witness. -/
theorem C3_retry_after_failure_witness :
    (⟨none, none, false⟩ : AppState).model = none ∧
    LoadOutcome.tokenizerError.failed = true ∧
    ((load_model ⟨none, none, false⟩ .tokenizerError).1.model = none ∧
      (load_model ⟨none, none, false⟩ .tokenizerError).1.model_loading = false) ∧
    (get_model (load_model_background ⟨none, none, false⟩ .tokenizerError)
        (.success 4 6)).2.2 = 1 ∧
    (get_model (load_model_background ⟨none, none, false⟩ .tokenizerError)
        (.success 4 6)).2.1 = Except.ok (some 6, some 4) :=
  ⟨rfl, rfl,
   (C3_retry_after_failure ⟨none, none, false⟩ .tokenizerError (.success 4 6) rfl rfl).1,
   (C3_retry_after_failure ⟨none, none, false⟩ .tokenizerError (.success 4 6) rfl rfl).2.2.1,
   (C3_retry_after_failure ⟨none, none, false⟩ .tokenizerError (.success 4 6) rfl rfl).2.2.2
     4 6 rfl⟩

/-- Claim C4, counterexample.  A `/generate` request that is missing
`prompt` AND carries `max_length = 501` does not always get a 400:
`get_model()` runs before any validation, so when the request arrives
with the model unloaded and the lazy load raises, the handler answers
500, not a client error.  (The backend is still not invoked.) -/
theorem C4_counterexample :
    (generate_text initState .tokenizerError (fun _ _ => [])
        ⟨none, some 501, none⟩).2.1.2 = 500 ∧
    (generate_text initState .tokenizerError (fun _ _ => [])
        ⟨none, some 501, none⟩).2.1.2 ≠ 400 ∧
    (generate_text initState .tokenizerError (fun _ _ => [])
        ⟨none, some 501, none⟩).2.2 = false := by
  refine ⟨rfl, by decide, rfl⟩

/-- Claim C4, amended: for a request missing `prompt` or with
`max_length > 500`, the handler returns 400 whenever the model
acquisition step does not raise (it returns 500 when it does), and the
Generation Backend is never invoked for such a request in any case. -/
theorem C4_amended (s : AppState) (o : LoadOutcome) (B : Str → Int → Str)
    (req : GenRequest)
    (hbad : req.prompt = none ∨ 500 < req.max_length.getD 100) :
    (∀ v, (get_model s o).2.1 = Except.ok v →
      (generate_text s o B req).2.1.2 = 400) ∧
    (generate_text s o B req).2.2 = false := by
  constructor
  · intro v hv
    rcases hg : get_model s o with ⟨s1, exc, k⟩
    cases exc with
    | error e => rw [hg] at hv; exact absurd hv (by simp)
    | ok w =>
      obtain ⟨mOpt, tOpt⟩ := w
      cases hp : req.prompt with
      | none => simp [generate_text, hg, hp]
      | some p =>
        have hml : 500 < req.max_length.getD 100 := by
          rcases hbad with hb | hb
          · rw [hp] at hb; cases hb
          · exact hb
        simp [generate_text, hg, hp, hml]
  · rcases hg : get_model s o with ⟨s1, exc, k⟩
    cases exc with
    | error e => simp [generate_text, hg]
    | ok w =>
      obtain ⟨mOpt, tOpt⟩ := w
      cases hp : req.prompt with
      | none => simp [generate_text, hg, hp]
      | some p =>
        have hml : 500 < req.max_length.getD 100 := by
          rcases hbad with hb | hb
          · rw [hp] at hb; cases hb
          · exact hb
        simp [generate_text, hg, hp, hml]

/-- Claim C4 witness. -/
theorem C4_amended_witness :
    ((⟨none, some 501, none⟩ : GenRequest).prompt = none ∨
      500 < (⟨none, some 501, none⟩ : GenRequest).max_length.getD 100) ∧
    (generate_text ⟨some 1, some 2, false⟩ (.success 0 0) (fun _ _ => [])
        ⟨none, some 501, none⟩).2.1.2 = 400 ∧
    (generate_text ⟨some 1, some 2, false⟩ (.success 0 0) (fun _ _ => [])
        ⟨none, some 501, none⟩).2.2 = false :=
  ⟨Or.inl rfl,
   (C4_amended ⟨some 1, some 2, false⟩ (.success 0 0) (fun _ _ => [])
      ⟨none, some 501, none⟩ (Or.inl rfl)).1 (some 1, some 2) rfl,
   (C4_amended ⟨some 1, some 2, false⟩ (.success 0 0) (fun _ _ => [])
      ⟨none, some 501, none⟩ (Or.inl rfl)).2⟩

/-- Claim C9: with the handle ready and `prompt` present, the serverless
`/generate` handler returns the `max_length` 400 error exactly when
`max_length > 500`; any `max_length ≤ 500` — zero and negative values
included — passes validation and the request is dispatched to the
Generation Backend with that value. -/
theorem C9_upper_bound_only (s : AppState) (o : LoadOutcome)
    (B : Str → Int → Str) (req : GenRequest) (m t : Nat) (p : Str)
    (hm : s.model = some m) (ht : s.tokenizer = some t)
    (hp : req.prompt = some p) :
    ((generate_text s o B req).2.1 =
        (RespBody.err "max_length cannot exceed 500 tokens", 400)
      ↔ 500 < req.max_length.getD 100) ∧
    (req.max_length.getD 100 ≤ 500 →
      (generate_text s o B req).2.2 = true ∧
      (generate_text s o B req).2.1 =
        (RespBody.genOk p (B p (req.max_length.getD 100)) MODEL_NAME, 200)) := by
  obtain ⟨mo, tk, ml⟩ := s
  simp only at hm ht
  subst hm; subst ht
  have hg : get_model ⟨some m, some t, ml⟩ o =
      (⟨some m, some t, ml⟩, .ok (some m, some t), 0) := rfl
  constructor
  · by_cases hml : 500 < req.max_length.getD 100
    · simp [generate_text, hg, hp, hml]
    · simp [generate_text, hg, hp, hml]
  · intro hle
    have hml : ¬ 500 < req.max_length.getD 100 := not_lt.mpr hle
    simp [generate_text, hg, hp, hml]

/-- Claim C9 witness (a negative `max_length` passes validation and is
dispatched). -/
theorem C9_upper_bound_only_witness :
    (⟨some 1, some 2, false⟩ : AppState).model = some 1 ∧
    (⟨some 1, some 2, false⟩ : AppState).tokenizer = some 2 ∧
    (⟨some "hi".data, some (-3), none⟩ : GenRequest).prompt = some "hi".data ∧
    (⟨some "hi".data, some (-3), none⟩ : GenRequest).max_length.getD 100 ≤ 500 ∧
    (generate_text ⟨some 1, some 2, false⟩ (.success 0 0) (fun q _ => q)
        ⟨some "hi".data, some (-3), none⟩).2.2 = true ∧
    (generate_text ⟨some 1, some 2, false⟩ (.success 0 0) (fun q _ => q)
        ⟨some "hi".data, some (-3), none⟩).2.1 =
      (RespBody.genOk "hi".data
        ((fun (q : Str) (_ : Int) => q) "hi".data
          ((⟨some "hi".data, some (-3), none⟩ : GenRequest).max_length.getD 100))
        MODEL_NAME, 200) :=
  ⟨rfl, rfl, rfl, by decide,
   (C9_upper_bound_only ⟨some 1, some 2, false⟩ (.success 0 0) (fun q _ => q)
      ⟨some "hi".data, some (-3), none⟩ 1 2 "hi".data rfl rfl rfl).2 (by decide)⟩

/-- Helper: a string occurring inside another is no longer than it. -/
theorem occursIn_length_le (needle : Str) :
    ∀ hay : Str, occursIn needle hay = true → needle.length ≤ hay.length := by
  intro hay
  induction hay with
  | nil =>
    intro h
    simp [occursIn, List.isEmpty_iff] at h
    simp [h]
  | cons c t ih =>
    intro h
    simp only [occursIn, Bool.or_eq_true] at h
    rcases h with h | h
    · exact (List.isPrefixOf_iff_prefix.mp h).length_le
    · exact (ih h).trans (by simp)

/-- Claim C5, counterexample.  With the actual `/chat` prompt built from
one user message `hi` and no manuscript context, a backend raw output
consisting of the prompt echoed twice strips to exactly the prompt: the
returned text still has the constructed prompt as a prefix, and stripping
a second time gives a different (empty) result, so the strip step is not
idempotent. -/
theorem C5_counterexample :
    pyStartswith
      (stripPromptEcho (buildFullPrompt [⟨some "user", some "hi".data⟩] [])
        (buildFullPrompt [⟨some "user", some "hi".data⟩] [] ++
          buildFullPrompt [⟨some "user", some "hi".data⟩] []))
      (buildFullPrompt [⟨some "user", some "hi".data⟩] []) = true ∧
    stripPromptEcho (buildFullPrompt [⟨some "user", some "hi".data⟩] [])
        (stripPromptEcho (buildFullPrompt [⟨some "user", some "hi".data⟩] [])
          (buildFullPrompt [⟨some "user", some "hi".data⟩] [] ++
            buildFullPrompt [⟨some "user", some "hi".data⟩] [])) ≠
      stripPromptEcho (buildFullPrompt [⟨some "user", some "hi".data⟩] [])
        (buildFullPrompt [⟨some "user", some "hi".data⟩] [] ++
          buildFullPrompt [⟨some "user", some "hi".data⟩] []) := by
  refine ⟨by decide, by decide⟩

/-- Claim C5, amended: one strip removes only the first echoed copy of
the prompt, so the step is idempotent (and the returned text retains no
prompt prefix) exactly for those raw outputs whose once-stripped form
does not itself start with the full prompt again. -/
theorem C5_amended (p s : Str)
    (h : pyStartswith (stripPromptEcho p s) p = false) :
    stripPromptEcho p (stripPromptEcho p s) = stripPromptEcho p s := by
  have hX : stripPromptEcho p (stripPromptEcho p s) =
      if pyStartswith (stripPromptEcho p s) p then
        pyStrip ((stripPromptEcho p s).drop p.length)
      else stripPromptEcho p s := rfl
  rw [hX, h]
  simp

/-- Claim C5 witness. -/
theorem C5_amended_witness :
    pyStartswith (stripPromptEcho "ab".data "abc".data) "ab".data = false ∧
    stripPromptEcho "ab".data (stripPromptEcho "ab".data "abc".data) =
      stripPromptEcho "ab".data "abc".data :=
  ⟨by decide, C5_amended "ab".data "abc".data (by decide)⟩

/-- Claim C6: for a non-empty manuscript context the system prompt embeds
exactly `manuscript_context[:2000]`; that excerpt has length exactly 2000
when the context is longer than 2000 characters, and is the whole context
unchanged when the context has 2000 characters or fewer. -/
theorem C6_context_truncation (ctx : Str) (h : ctx ≠ []) :
    buildSystemPrompt ctx = SYSTEM_BASE ++ CONTEXT_HEADER ++ ctx.take 2000 ∧
    (2000 < ctx.length → (ctx.take 2000).length = 2000) ∧
    (ctx.length ≤ 2000 → ctx.take 2000 = ctx) := by
  refine ⟨by simp [buildSystemPrompt, h], ?_, ?_⟩
  · intro hlen
    simp [List.length_take]
    omega
  · intro hlen
    exact List.take_of_length_le hlen

/-- Claim C6 witness (a 2001-character context truncates to 2000; a short
context is embedded unchanged). -/
theorem C6_context_truncation_witness :
    (List.replicate 2001 'a' : Str) ≠ [] ∧
    2000 < (List.replicate 2001 'a' : Str).length ∧
    ((List.replicate 2001 'a' : Str).take 2000).length = 2000 ∧
    ("abc".data : Str) ≠ [] ∧
    ("abc".data : Str).length ≤ 2000 ∧
    ("abc".data : Str).take 2000 = "abc".data ∧
    buildSystemPrompt "abc".data = SYSTEM_BASE ++ CONTEXT_HEADER ++ "abc".data.take 2000 :=
  ⟨by apply List.ne_nil_of_length_pos; rw [List.length_replicate]; omega,
   by rw [List.length_replicate]; omega,
   (C6_context_truncation (List.replicate 2001 'a')
      (by apply List.ne_nil_of_length_pos; rw [List.length_replicate]; omega)).2.1
     (by rw [List.length_replicate]; omega),
   by decide, by decide,
   (C6_context_truncation "abc".data (by decide)).2.2 (by decide),
   (C6_context_truncation "abc".data (by decide)).1⟩

/-- Claim C7, counterexample.  For a configured 4-character token `abcd`
the masked form is `abcd...abcd`: the full secret occurs verbatim in the
`/debug/env` response body (twice), so the masking does not prevent the
full token value from appearing for every configured token. -/
theorem C7_counterexample :
    (debug_env (some "abcd".data) none).hf_token_masked = "abcd...abcd".data ∧
    occursIn "abcd".data (debug_env (some "abcd".data) none).hf_token_masked = true := by
  refine ⟨rfl, by decide⟩

/-- Claim C7, amended: the masked form is exactly the first four and last
four characters of the token joined by `...` (so at most those eight
characters of the secret are revealed), and for any token longer than the
11-character mask — every real credential — the full token value cannot
occur in the masked string.  Tokens of eleven characters or fewer can
appear in full (see the counterexample). -/
theorem C7_amended (t : Str) (p : Option Str) (h : 11 < t.length) :
    (debug_env (some t) p).hf_token_masked =
      t.take 4 ++ "...".data ++ t.drop (t.length - 4) ∧
    (debug_env (some t) p).hf_token_masked.length = 11 ∧
    occursIn t (debug_env (some t) p).hf_token_masked = false := by
  have hmask : (debug_env (some t) p).hf_token_masked =
      t.take 4 ++ "...".data ++ t.drop (t.length - 4) := rfl
  have hlen : (debug_env (some t) p).hf_token_masked.length = 11 := by
    rw [hmask]
    simp [List.length_take, List.length_drop]
    omega
  refine ⟨hmask, hlen, ?_⟩
  cases hocc : occursIn t (debug_env (some t) p).hf_token_masked with
  | false => rfl
  | true =>
    exfalso
    have hle := occursIn_length_le t _ hocc
    rw [hlen] at hle
    omega

/-- Claim C7 witness. -/
theorem C7_amended_witness :
    11 < ("hf_abcdefghi".data : Str).length ∧
    (debug_env (some "hf_abcdefghi".data) none).hf_token_masked.length = 11 ∧
    occursIn "hf_abcdefghi".data
      (debug_env (some "hf_abcdefghi".data) none).hf_token_masked = false :=
  ⟨by decide,
   (C7_amended "hf_abcdefghi".data none (by decide)).2.1,
   (C7_amended "hf_abcdefghi".data none (by decide)).2.2⟩

/-- Helper: `load_model` preserves the model-implies-tokenizer invariant
in both variants and for every outcome. -/
theorem loadedInv_load_model (s : AppState) (o : LoadOutcome)
    (h : LoadedInv s) : LoadedInv (load_model s o).1 := by
  cases o <;> simp_all [LoadedInv, load_model]

/-- Claim C8: the tokenizer is assigned strictly before the model in both
load routines, so the invariant "model set implies tokenizer set" holds
initially and is preserved by `load_model`, `load_model_background` and
`get_model` in the serverless variant and by the VM load routine;
consequently whenever `/health` reports `model_loaded = true` the
tokenizer is present as well. -/
theorem C8_model_implies_tokenizer (s : AppState) (v : VmState)
    (o : LoadOutcome) (hs : LoadedInv s)
    (hv : v.model.isSome → v.tokenizer.isSome) :
    LoadedInv initState ∧
    LoadedInv (load_model s o).1 ∧
    LoadedInv (load_model_background s o) ∧
    LoadedInv (get_model s o).1 ∧
    ((health_check s).model_loaded = true → s.tokenizer.isSome) ∧
    ((vm_load_model v o).1.model.isSome → (vm_load_model v o).1.tokenizer.isSome) := by
  refine ⟨by simp [LoadedInv, initState], loadedInv_load_model s o hs, ?_, ?_, ?_, ?_⟩
  · exact loadedInv_load_model { s with model_loading := true } o (by simpa [LoadedInv] using hs)
  · unfold get_model
    cases hm : s.model with
    | some m => simpa [LoadedInv, hm] using hs
    | none =>
      by_cases hl : s.model_loading
      · simpa [hl] using loadedInv_load_model s o hs
      · rcases hload : load_model s o with ⟨s1, exc⟩
        have h1 : LoadedInv s1 := by
          have := loadedInv_load_model s o hs
          rwa [hload] at this
        cases exc <;> simp [hl, hload, h1]
  · intro hh
    exact hs (by simpa [health_check] using hh)
  · intro hvm
    cases o <;> simp_all [vm_load_model]

/-- Claim C8 witness. -/
theorem C8_model_implies_tokenizer_witness :
    LoadedInv ⟨none, none, false⟩ ∧
    ((⟨none, none⟩ : VmState).model.isSome → (⟨none, none⟩ : VmState).tokenizer.isSome) ∧
    LoadedInv (load_model ⟨none, none, false⟩ (.modelError 3)).1 ∧
    ((health_check ⟨none, none, false⟩).model_loaded = true →
      (⟨none, none, false⟩ : AppState).tokenizer.isSome) ∧
    ((vm_load_model ⟨none, none⟩ (.modelError 3)).1.model.isSome →
      (vm_load_model ⟨none, none⟩ (.modelError 3)).1.tokenizer.isSome) :=
  ⟨by decide, by decide,
   (C8_model_implies_tokenizer ⟨none, none, false⟩ ⟨none, none⟩ (.modelError 3)
      (by decide) (by decide)).2.1,
   (C8_model_implies_tokenizer ⟨none, none, false⟩ ⟨none, none⟩ (.modelError 3)
      (by decide) (by decide)).2.2.2.2.1,
   (C8_model_implies_tokenizer ⟨none, none, false⟩ ⟨none, none⟩ (.modelError 3)
      (by decide) (by decide)).2.2.2.2.2⟩

/-- Claim C10: in the VM variant, `generate()` is an exact alias of
`chat()` — its body is `return chat()`, so for every state, backend and
request the two return the identical status code and body. -/
theorem C10_generate_aliases_chat (s : VmState) (B : Str → Int → Str)
    (req : VmChatRequest) :
    vm_generate s B req = vm_chat s B req := rfl
